import Mathlib

/-!
Verification of the FisherAI fishing-planner web client.

The client is embedded shallowly: React component handlers become pure
functions over explicit state records, asynchronous API calls become an
`Except ApiFailure α` outcome parameter handed to the continuation, and
JavaScript string truthiness (`!x`, `x || y`) is made explicit over
`Option String`.
-/

namespace FisherAi

/-- Area record from lib/types.ts (`Area`). -/
structure Area where
  id : String
  name : String
  lat : Int
  lon : Int
  coast_facing : String
  notes : Option String
  legal : Option String
deriving Repr, DecidableEq

/-- Region record from lib/types.ts (`Region`). -/
structure Region where
  id : String
  name : String
  areas : List Area
deriving Repr, DecidableEq

/-- The optional defaults record inside `MetaResponse`. -/
structure Defaults where
  region_id : String
  area_id : String
deriving Repr, DecidableEq

/-- Metadata payload from GET /meta/regions (`MetaResponse` in lib/types.ts). -/
structure MetaResponse where
  regions : List Region
  species : List String
  defaults : Option Defaults
deriving Repr, DecidableEq

/-- Plan request body (`PlanRequest` in lib/types.ts). -/
structure PlanRequest where
  region_id : String
  area_id : String
  species : List String
  start_date : String
  end_date : String
deriving Repr, DecidableEq

/-- A preset has exactly the shape of a plan request (`type Preset = PlanRequest`). -/
abbrev Preset := PlanRequest

/-- Per-species sub-score record (`SpeciesPlan` in lib/types.ts). -/
structure SpeciesPlan where
  species : String
  label : String
  score : Int
  legal : Option String
deriving Repr, DecidableEq

/-- Per-metric data-source labels (`PlanWindow.sources` in lib/types.ts).
Each label is a string or null/undefined, modelled as `Option String`. -/
structure Sources where
  wind : Option String
  wind_deg : Option String
  swell : Option String
  swell_period : Option String
  sea_temp : Option String
  tide : Option String
deriving Repr, DecidableEq

/-- A ranked result row (`PlanWindow` in lib/types.ts). Numeric weather metrics
are kept as integers; no claim depends on their fractional part. -/
structure PlanWindow where
  date : String
  window : String
  window_id : String
  score : Int
  per_species : List SpeciesPlan
  wind_speed : Int
  wind_deg : Int
  swell_height : Int
  swell_period : Int
  sea_temp : Int
  tide_phase : String
  sources : Option Sources
  explanation : Option String
  factors : Option (List String)
deriving Repr, DecidableEq

/-- Plan response body (`PlanResponse` in lib/types.ts). -/
structure PlanResponse where
  region : Region
  area : Area
  species : List String
  generated_at : String
  results : List PlanWindow
  sources : List String
deriving Repr, DecidableEq

/-- JavaScript falsiness of an optional string value: null/undefined or the
empty string. This is the notion the client uses both to decide a data gap
(`!row.sources.wind`) and to substitute the fallback label
(`row.sources.wind || "open-meteo"`). -/
def falsyStr : Option String → Bool
  | none => true
  | some s => s == ""

/-- ResultsList.tsx: `const hasGap = !row.sources || !row.sources.wind ||
!row.sources.swell || !row.sources.sea_temp || !row.sources.tide;`. -/
def hasGap (row : PlanWindow) : Bool :=
  match row.sources with
  | none => true
  | some s => falsyStr s.wind || falsyStr s.swell || falsyStr s.sea_temp || falsyStr s.tide

/-- The wind source label reachable from a row (none when the row has no
sources record at all). -/
def windLabel (row : PlanWindow) : Option String :=
  row.sources.bind Sources.wind

/-- The swell source label reachable from a row. -/
def swellLabel (row : PlanWindow) : Option String :=
  row.sources.bind Sources.swell

/-- The sea-temperature source label reachable from a row. -/
def seaTempLabel (row : PlanWindow) : Option String :=
  row.sources.bind Sources.sea_temp

/-- The tide source label reachable from a row. -/
def tideLabel (row : PlanWindow) : Option String :=
  row.sources.bind Sources.tide

/-- A source label is missing when it is absent, null, or empty — exactly the
values the component treats as unspecified. -/
def missingLabel (o : Option String) : Bool := falsyStr o

/-- ResultsList.tsx: the component renders `results.slice(0, 8)`, after an
early return of no rows when the list is empty. -/
def renderedRows (results : List PlanWindow) : List PlanWindow :=
  if results.isEmpty then [] else results.take 8

/-- Claim C2: a result row shows the data-gap indicator if and only if at
least one of the four source labels (wind, swell, sea_temp, tide) is missing
(absent, null, or empty); when all four are present the indicator is not
shown. -/
theorem resultsList_dataGap_iff (row : PlanWindow) :
    hasGap row = true ↔
      (missingLabel (windLabel row) = true ∨ missingLabel (swellLabel row) = true ∨
       missingLabel (seaTempLabel row) = true ∨ missingLabel (tideLabel row) = true) := by
  cases h : row.sources with
  | none =>
    simp [hasGap, missingLabel, windLabel, swellLabel, seaTempLabel, tideLabel, falsyStr, h]
  | some s =>
    simp [hasGap, missingLabel, windLabel, swellLabel, seaTempLabel, tideLabel, h,
      Bool.or_eq_true, or_assoc]

/-- Claim C7: the results component renders exactly the first
min(length, 8) entries of the input list, in the order supplied, with no
re-sorting. -/
theorem resultsList_top_eight (rs : List PlanWindow) :
    renderedRows rs = rs.take 8 ∧ (renderedRows rs).length = min rs.length 8 := by
  have h : renderedRows rs = rs.take 8 := by
    unfold renderedRows
    split
    · next he =>
      rw [List.isEmpty_iff] at he
      rw [he]
      rfl
    · rfl
  refine ⟨h, ?_⟩
  rw [h, List.length_take]
  omega

/-- JavaScript `a || d` over an optional string `a` with string default `d`:
the default is taken when `a` is null/undefined or empty. -/
def orElseStr : Option String → String → String
  | none, d => d
  | some s, d => if s = "" then d else s

/-- The local state of PlannerForm.tsx: region, area, species selections and
the two date inputs. -/
structure FormState where
  regionId : String
  areaId : String
  species : List String
  startDate : String
  endDate : String
deriving Repr, DecidableEq

/-- PlannerForm.tsx: `meta?.regions.find((r) => r.id === regionId)`. -/
def findRegion (meta : MetaResponse) (rid : String) : Option Region :=
  meta.regions.find? (fun r => r.id == rid)

/-- PlannerForm.tsx region select onChange: set the region id, look up the
newly selected region's area list, and if it is non-empty set the area id to
its first element (otherwise no area update is performed). -/
def handleRegionChange (meta : Option MetaResponse) (s : FormState) (rid : String) : FormState :=
  match (meta.bind fun m => findRegion m rid).map Region.areas with
  | some (a :: _) => { s with regionId := rid, areaId := a.id }
  | _ => { s with regionId := rid }

/-- PlannerForm.tsx preset chip onClick, state part: copy the preset's five
fields into the form state. -/
def applyPreset (s : FormState) (p : Preset) : FormState :=
  { s with regionId := p.region_id, areaId := p.area_id, species := p.species,
           startDate := p.start_date, endDate := p.end_date }

/-- PlannerForm.tsx preset chip onClick: update the form state from the
preset and call `onApplyPreset(p)`, which the page forwards to `runPlan(p)`;
the second component is the plan request issued. -/
def applyPresetClick (s : FormState) (p : Preset) : FormState × PlanRequest :=
  (applyPreset s p, p)

/-- PlannerForm.tsx submit onClick: the payload handed to `onSubmit` is built
from the five pieces of form state. -/
def submitPayload (s : FormState) : PlanRequest :=
  { region_id := s.regionId, area_id := s.areaId, species := s.species,
    start_date := s.startDate, end_date := s.endDate }

/-- PlannerForm.tsx Reset onClick: clear the species selection and set region
and area back to the metadata defaults, empty when absent. Dates are not
touched. -/
def resetForm (defaults : Option Defaults) (s : FormState) : FormState :=
  { s with species := [],
           regionId := orElseStr (defaults.map Defaults.region_id) "",
           areaId := orElseStr (defaults.map Defaults.area_id) "" }

/-- A concrete area used by the region-change examples. -/
def cex1Area : Area :=
  { id := "a1", name := "False Bay", lat := -34, lon := 18,
    coast_facing := "S", notes := none, legal := none }

/-- A concrete region with a non-empty area list. -/
def cex1Region1 : Region :=
  { id := "r1", name := "Western Cape", areas := [cex1Area] }

/-- A concrete region with an empty area list. -/
def cex1Region2 : Region :=
  { id := "r2", name := "Empty Region", areas := [] }

/-- A metadata payload with one region that has an area and one region with
an empty area list. -/
def cex1Meta : MetaResponse :=
  { regions := [cex1Region1, cex1Region2],
    species := ["kob"],
    defaults := none }

/-- A form state currently on region r1 with its area a1 selected. -/
def cex1Form : FormState :=
  { regionId := "r1", areaId := "a1", species := [],
    startDate := "2025-03-01", endDate := "2025-03-03" }

/-- Claim C1, counterexample: selecting region r2, whose area list is empty,
leaves the previously selected area a1 in place instead of resetting the
area selection to empty. -/
theorem regionChange_no_reset_cex :
    (findRegion cex1Meta "r2").map Region.areas = some [] ∧
    (handleRegionChange (some cex1Meta) cex1Form "r2").areaId = "a1" ∧
    (handleRegionChange (some cex1Meta) cex1Form "r2").areaId ≠ "" := by
  refine ⟨by decide, by decide, by decide⟩

/-- Claim C1, amended: on a region selection change the region id is updated;
if the newly selected region's area list is non-empty the area selection
becomes its first area, and if the region has no areas the area selection is
left unchanged (not reset to empty). -/
theorem regionChange_first_area (meta : MetaResponse) (s : FormState) (rid : String)
    (r : Region) (h : findRegion meta rid = some r) :
    (handleRegionChange (some meta) s rid).regionId = rid ∧
    (handleRegionChange (some meta) s rid).areaId =
      (match r.areas with
       | a :: _ => a.id
       | [] => s.areaId) := by
  have hb : ((some meta).bind fun m => findRegion m rid).map Region.areas = some r.areas := by
    show (findRegion meta rid).map Region.areas = some r.areas
    rw [h]
    rfl
  unfold handleRegionChange
  rw [hb]
  cases r.areas with
  | nil => exact ⟨rfl, rfl⟩
  | cons a t => exact ⟨rfl, rfl⟩

/-- Concrete instantiation of the amended region-change theorem at region r1
of the concrete metadata. -/
theorem regionChange_first_area_witness :
    findRegion cex1Meta "r1" = some cex1Region1 ∧
    ((handleRegionChange (some cex1Meta) cex1Form "r1").regionId = "r1" ∧
     (handleRegionChange (some cex1Meta) cex1Form "r1").areaId =
       (match cex1Region1.areas with
        | a :: _ => a.id
        | [] => cex1Form.areaId)) :=
  ⟨by decide, regionChange_first_area cex1Meta cex1Form "r1" cex1Region1 (by decide)⟩

/-- Claim C6: applying a saved preset immediately issues a plan request equal
to the preset, copies all five preset fields into the form state, and the
next submitted payload from that state is exactly the preset. -/
theorem preset_roundtrip (s : FormState) (p : Preset) :
    (applyPresetClick s p).2 = p ∧
    submitPayload (applyPresetClick s p).1 = p ∧
    (applyPresetClick s p).1.regionId = p.region_id ∧
    (applyPresetClick s p).1.areaId = p.area_id ∧
    (applyPresetClick s p).1.species = p.species ∧
    (applyPresetClick s p).1.startDate = p.start_date ∧
    (applyPresetClick s p).1.endDate = p.end_date :=
  ⟨rfl, rfl, rfl, rfl, rfl, rfl, rfl⟩

/-- Claim C9: reset empties the species selection and restores region and
area to the metadata defaults (empty when no defaults are known), while both
date fields keep their current values. -/
theorem reset_restores_defaults (d : Option Defaults) (s : FormState) :
    (resetForm d s).species = [] ∧
    (resetForm d s).startDate = s.startDate ∧
    (resetForm d s).endDate = s.endDate ∧
    (resetForm d s).regionId = (match d with | some df => df.region_id | none => "") ∧
    (resetForm d s).areaId = (match d with | some df => df.area_id | none => "") := by
  refine ⟨rfl, rfl, rfl, ?_, ?_⟩
  · cases d with
    | none => rfl
    | some df =>
      show (if df.region_id = "" then "" else df.region_id) = df.region_id
      split
      · next he => exact he.symm
      · rfl
  · cases d with
    | none => rfl
    | some df =>
      show (if df.area_id = "" then "" else df.area_id) = df.area_id
      split
      · next he => exact he.symm
      · rfl

/-- The state owned by the usePlanner hook: metadata, plan results, the
shared error slot, the preset list, and the two loading flags. -/
structure PlannerState where
  meta : Option MetaResponse
  loadingMeta : Bool
  results : Option PlanResponse
  planning : Bool
  error : Option String
  presets : List Preset
deriving Repr, DecidableEq

/-- A failed API call as the hook's catch blocks see it: the optional
structured error field of the response body (`err?.response?.data?.error`)
and the optional transport message (`err?.message`). A transport error has
no response field; a non-success status carries one. -/
structure ApiFailure where
  responseError : Option String
  message : Option String
deriving Repr, DecidableEq

/-- The display string produced by usePlanner's runPlan catch block:
`err?.response?.data?.error || err?.message || "Plan failed"`. -/
def planErrorMessage (e : ApiFailure) : String :=
  orElseStr e.responseError (orElseStr e.message "Plan failed")

/-- The display string produced by persistPreset's catch block:
`err?.response?.data?.error || err?.message || "Preset save failed"`. -/
def presetSaveErrorMessage (e : ApiFailure) : String :=
  orElseStr e.responseError (orElseStr e.message "Preset save failed")

/-- usePlanner.runPlan as a state transition: set planning, clear the error,
await createPlan; on success store the results, on failure store the error
message; finally clear planning. The awaited call is passed in as its
outcome. -/
def runPlan (s : PlannerState) (outcome : Except ApiFailure PlanResponse) : PlannerState :=
  match outcome with
  | Except.ok data => { s with planning := false, error := none, results := some data }
  | Except.error e => { s with planning := false, error := some (planErrorMessage e) }

/-- usePlanner.persistPreset: an empty user id returns without any call;
otherwise the savePreset call is issued (reported in the first component as
the header identifier and body) and on success the preset list is replaced
with the response, on failure the shared error is set. -/
def persistPreset (userId : String) (preset : Preset) (s : PlannerState)
    (outcome : Except ApiFailure (List Preset)) :
    Option (String × Preset) × PlannerState :=
  if userId = "" then (none, s)
  else
    match outcome with
    | Except.ok data => (some (userId, preset), { s with presets := data })
    | Except.error e => (some (userId, preset), { s with error := some (presetSaveErrorMessage e) })

/-- PlannerPage.handleSavePreset: with an empty user id, show the prompt
(first component true) and do nothing else; otherwise delegate to
persistPreset. The middle component is the network call issued, if any. -/
def handleSavePreset (userId : String) (payload : PlanRequest) (s : PlannerState)
    (outcome : Except ApiFailure (List Preset)) :
    Bool × Option (String × Preset) × PlannerState :=
  if userId = "" then (true, none, s)
  else
    let r := persistPreset userId payload s outcome
    (false, r.1, r.2)

/-- The two browser-persisted timestamp slots of PlannerForm.tsx: the
localStorage key fisher_last_saved and the mirrored lastSaved component
state. -/
structure FormPersist where
  lastSavedStore : Option String
  lastSavedState : Option String
deriving Repr, DecidableEq

/-- PlannerForm.tsx Save-preset button onClick: call onSavePreset with the
current form payload, then unconditionally write the current timestamp to
localStorage and to the lastSaved state. -/
def saveClick (userId : String) (payload : PlanRequest) (s : PlannerState)
    (fp : FormPersist) (outcome : Except ApiFailure (List Preset)) (now : String) :
    Bool × Option (String × Preset) × PlannerState × FormPersist :=
  let r := handleSavePreset userId payload s outcome
  (r.1, r.2.1, r.2.2, { fp with lastSavedStore := some now, lastSavedState := some now })

/-- Claim C4: when the plan call fails, the results state is exactly what it
was before the invocation and the shared error slot holds a non-empty
message. -/
theorem runPlan_failure_preserves_results (s : PlannerState) (e : ApiFailure) :
    (runPlan s (Except.error e)).results = s.results ∧
    (runPlan s (Except.error e)).error = some (planErrorMessage e) ∧
    planErrorMessage e ≠ "" := by
  refine ⟨rfl, rfl, ?_⟩
  unfold planErrorMessage
  rcases e with ⟨re, msg⟩
  have hinner : orElseStr msg "Plan failed" ≠ "" := by
    cases msg with
    | none => simp [orElseStr]
    | some m =>
      show (if m = "" then "Plan failed" else m) ≠ ""
      split
      · simp
      · next hm => exact hm
  cases re with
  | none => exact hinner
  | some rs =>
    show (if rs = "" then orElseStr msg "Plan failed" else rs) ≠ ""
    split
    · exact hinner
    · next hr => exact hr

/-- Claim C5: invoking the save-preset action with an empty caller
identifier shows the prompt, issues no network call, and leaves the state —
in particular the preset list — unchanged. -/
theorem savePreset_no_user_prompts (payload : PlanRequest) (s : PlannerState)
    (outcome : Except ApiFailure (List Preset)) :
    handleSavePreset "" payload s outcome = (true, none, s) ∧
    (handleSavePreset "" payload s outcome).2.2.presets = s.presets := by
  have h : handleSavePreset "" payload s outcome = (true, none, s) := by
    unfold handleSavePreset
    rw [if_pos rfl]
  exact ⟨h, by rw [h]⟩

/-- A concrete plan request used by the preset-save examples. -/
def cex3Payload : PlanRequest :=
  { region_id := "r1", area_id := "a1", species := ["kob"],
    start_date := "2025-03-01", end_date := "2025-03-03" }

/-- A concrete hook state with no timestamp saved yet. -/
def cex3State : PlannerState :=
  { meta := none, loadingMeta := false, results := none,
    planning := false, error := none, presets := [] }

/-- Claim C3, counterexample: clicking Save preset with an empty caller
identifier issues no network call, yet the browser-persisted fisher last
saved timestamp is updated from none to the click time. The same write also
happens when the save call fails, as the outcome argument here is a failure. -/
theorem saveClick_stamps_without_user_cex :
    (saveClick "" cex3Payload cex3State ⟨none, none⟩
        (Except.error ⟨none, none⟩) "2025-03-01T08:00:00Z").2.1 = none ∧
    (saveClick "" cex3Payload cex3State ⟨none, none⟩
        (Except.error ⟨none, none⟩) "2025-03-01T08:00:00Z").2.2.2.lastSavedStore =
      some "2025-03-01T08:00:00Z" ∧
    some "2025-03-01T08:00:00Z" ≠ (none : Option String) := by
  refine ⟨rfl, rfl, by simp⟩

/-- Claim C3, amended: the browser-persisted last-saved timestamp is written
on every Save-preset click, regardless of whether a caller identifier is set
and regardless of whether the save call succeeds. -/
theorem saveClick_always_stamps (userId : String) (payload : PlanRequest) (s : PlannerState)
    (fp : FormPersist) (outcome : Except ApiFailure (List Preset)) (now : String) :
    (saveClick userId payload s fp outcome now).2.2.2.lastSavedStore = some now ∧
    (saveClick userId payload s fp outcome now).2.2.2.lastSavedState = some now :=
  ⟨rfl, rfl⟩

/-- ResultsList.tsx: the per-row status key is the template string
row.date dash row.window_id. -/
def rowKey (row : PlanWindow) : String := row.date ++ "-" ++ row.window_id

/-- A functional update of the feedback-status record, mirroring the spread
update in setFeedbackStatus. -/
def setStatus (m : String → Option String) (k v : String) : String → Option String :=
  fun q => if q = k then some v else m q

/-- ResultsList.handleFeedback on the status record: mark the row as
Sending, await sendFeedback, then mark the row Thanks on success or Error on
failure. -/
def handleFeedback (m : String → Option String) (row : PlanWindow)
    (outcome : Except ApiFailure Unit) : String → Option String :=
  let m1 := setStatus m (rowKey row) "Sending..."
  match outcome with
  | Except.ok _ => setStatus m1 (rowKey row) "Thanks!"
  | Except.error _ => setStatus m1 (rowKey row) "Error"

/-- A feedback round as the page sees it: the hook state is not touched at
all (handleFeedback has no access to it), only the status record changes. -/
def feedbackStep (s : PlannerState) (m : String → Option String) (row : PlanWindow)
    (outcome : Except ApiFailure Unit) : PlannerState × (String → Option String) :=
  (s, handleFeedback m row outcome)

/-- Claim C8: a failed feedback submission leaves the whole hook state (the
shared error slot and the displayed result list included) unchanged, sets
the originating row's status text to Error, and leaves every other row's
status unchanged. -/
theorem feedback_failure_scoped (s : PlannerState) (m : String → Option String)
    (row : PlanWindow) (e : ApiFailure) (k : String) (hk : k ≠ rowKey row) :
    (feedbackStep s m row (Except.error e)).1 = s ∧
    (feedbackStep s m row (Except.error e)).2 (rowKey row) = some "Error" ∧
    (feedbackStep s m row (Except.error e)).2 k = m k := by
  refine ⟨rfl, ?_, ?_⟩
  · show (if rowKey row = rowKey row then some "Error" else _) = some "Error"
    rw [if_pos rfl]
  · show (if k = rowKey row then some "Error"
      else if k = rowKey row then some "Sending..." else m k) = m k
    rw [if_neg hk, if_neg hk]

/-- A concrete result row for the feedback example. -/
def w8Row : PlanWindow :=
  { date := "2025-03-02", window := "Dawn", window_id := "dawn", score := 72,
    per_species := [], wind_speed := 10, wind_deg := 180, swell_height := 1,
    swell_period := 10, sea_temp := 16, tide_phase := "rising",
    sources := none, explanation := none, factors := none }

/-- A concrete status record holding an unrelated row's status. -/
def w8Status : String → Option String :=
  fun q => if q = "2025-03-03-dusk" then some "Thanks!" else none

/-- Concrete instantiation of the feedback-scoping theorem at an unrelated
row key. -/
theorem feedback_failure_scoped_witness :
    "2025-03-03-dusk" ≠ rowKey w8Row ∧
    ((feedbackStep cex3State w8Status w8Row (Except.error ⟨none, none⟩)).1 = cex3State ∧
     (feedbackStep cex3State w8Status w8Row (Except.error ⟨none, none⟩)).2 (rowKey w8Row) =
       some "Error" ∧
     (feedbackStep cex3State w8Status w8Row (Except.error ⟨none, none⟩)).2 "2025-03-03-dusk" =
       w8Status "2025-03-03-dusk") :=
  ⟨by decide,
   feedback_failure_scoped cex3State w8Status w8Row ⟨none, none⟩ "2025-03-03-dusk" (by decide)⟩

/-- The page-level flag that records whether a plan request has already been
submitted this session. -/
structure PageState where
  submitted : Bool
deriving Repr, DecidableEq

/-- PlannerPage's auto-run effect: when metadata is loaded, nothing has been
submitted yet, and the metadata carries a defaults record, issue one plan
request with the default region and area, an empty species list, today as
the start date and today plus two days (in milliseconds) as the end date,
and mark the session submitted. The date formatter (toISOString().slice of
an epoch-milliseconds clock) is a parameter. -/
def autoRunEffect (fmt : Nat → String) (now : Nat) (meta : Option MetaResponse)
    (st : PageState) : Option PlanRequest × PageState :=
  match meta with
  | none => (none, st)
  | some m =>
    if st.submitted then (none, st)
    else
      match m.defaults with
      | none => (none, st)
      | some d =>
        (some { region_id := d.region_id, area_id := d.area_id, species := [],
                start_date := fmt now,
                end_date := fmt (now + 2 * 24 * 60 * 60 * 1000) },
         { st with submitted := true })

/-- Claim C10: with metadata loaded, defaults present, and nothing submitted
yet, the effect issues exactly one plan request — default region and area,
empty species, today, today plus two days — and marks the page submitted, so
a re-invocation issues no further request; when the metadata has no defaults
record no request is issued and the page state is unchanged. -/
theorem autoRun_once (fmt : Nat → String) (now : Nat) (m m2 : MetaResponse)
    (st : PageState) (d : Defaults) (hd : m.defaults = some d)
    (hs : st.submitted = false) (h2 : m2.defaults = none) :
    autoRunEffect fmt now (some m) st =
      (some { region_id := d.region_id, area_id := d.area_id, species := [],
              start_date := fmt now,
              end_date := fmt (now + 2 * 24 * 60 * 60 * 1000) },
       { st with submitted := true }) ∧
    (autoRunEffect fmt now (some m) { st with submitted := true }).1 = none ∧
    autoRunEffect fmt now (some m2) st = (none, st) := by
  refine ⟨?_, ?_, ?_⟩
  · simp [autoRunEffect, hs, hd]
  · rfl
  · simp [autoRunEffect, hs, h2]

/-- A fixed date formatter for the auto-run example. -/
def w10Fmt : Nat → String := fun _ => "2025-03-01"

/-- A metadata payload carrying a defaults record. -/
def w10Meta : MetaResponse :=
  { regions := [], species := [], defaults := some { region_id := "r1", area_id := "a1" } }

/-- A metadata payload without a defaults record. -/
def w10Meta2 : MetaResponse :=
  { regions := [], species := [], defaults := none }

/-- The page state before anything was submitted. -/
def w10Page : PageState := { submitted := false }

/-- Concrete instantiation of the auto-run theorem at the two concrete
metadata payloads. -/
theorem autoRun_once_witness :
    w10Meta.defaults = some { region_id := "r1", area_id := "a1" } ∧
    w10Page.submitted = false ∧
    w10Meta2.defaults = none ∧
    (autoRunEffect w10Fmt 0 (some w10Meta) w10Page =
       (some { region_id := "r1", area_id := "a1", species := [],
               start_date := w10Fmt 0,
               end_date := w10Fmt (0 + 2 * 24 * 60 * 60 * 1000) },
        { w10Page with submitted := true }) ∧
     (autoRunEffect w10Fmt 0 (some w10Meta) { w10Page with submitted := true }).1 = none ∧
     autoRunEffect w10Fmt 0 (some w10Meta2) w10Page = (none, w10Page)) :=
  ⟨rfl, rfl, rfl,
   autoRun_once w10Fmt 0 w10Meta w10Meta2 w10Page
     { region_id := "r1", area_id := "a1" } rfl rfl rfl⟩

end FisherAi
